import Mathlib

/-!
Shallow embedding of util-linux `libs/blkid/src/probe.c` (low-level probing
library: probe session, two-tier buffer cache, prober dispatch loop, filter
bitmap, tag store and value emitters), together with theorems settling the
claims about its specification.

Modelling conventions:
* machine bytes are `Nat` (values `0..255`); byte buffers are `List Nat`;
* the device behind the file descriptor is embedded as a byte list `dev`
  stored in the probe state; `read` at position `p` for `n` bytes yields
  `(dev.drop p).take n` (a short read near end-of-device yields fewer than
  `n` bytes, a read past the end yields `[]`); `lseek` with a non-negative
  offset always succeeds, as it does on a regular file;
* `malloc`/`realloc`/`calloc` are assumed to succeed (allocation failure is
  not modelled); consequently the superblock buffer is represented by its
  filled contents only (`sbbuf : List Nat`, with `sbbuf.length` playing the
  role of `pr->sbbuf_len`), and the general buffer by the contents of its
  valid window (`buf : List Nat`) plus `buf_off`, `buf_len`, `buf_max`;
* fallible C functions returning pointers become `Option`; an unchecked NULL
  pointer dereference in the source is modelled as the result `none` of the
  enclosing operation.
-/

namespace Blkid

/-- Modelled from the spec: `BLKID_SB_BUFSIZ` lives in the header `blkidP.h`,
which is not among the source files; the spec fixes `SB_BUFSIZ = 65536`. -/
def BLKID_SB_BUFSIZ : Nat := 65536

/-- Modelled from the spec: `BLKID_PROBVAL_NVALS` (the tag-store capacity
`MAX_TAGS`) lives in the header `blkidP.h`, which is not among the source
files; the spec requires `MAX_TAGS ≥ 16`, we take 16. -/
def BLKID_PROBVAL_NVALS : Nat := 16

/-- Modelled from the spec: `BLKID_PROBVAL_BUFSIZ` (`MAX_VALUE_BYTES`) lives
in the header `blkidP.h`, which is not among the source files; the spec fixes
`MAX_VALUE_BYTES = 256`. -/
def BLKID_PROBVAL_BUFSIZ : Nat := 256

/-- Modelled from the spec: the probe-request mask flags are defined in the
header `blkidP.h`, which is not among the source files; they are distinct
single-bit masks. -/
def BLKID_PROBREQ_LABEL : Nat := 2

/-- Modelled from the spec: see `BLKID_PROBREQ_LABEL`. -/
def BLKID_PROBREQ_LABELRAW : Nat := 4

/-- Modelled from the spec: see `BLKID_PROBREQ_LABEL`. -/
def BLKID_PROBREQ_UUID : Nat := 8

/-- Modelled from the spec: see `BLKID_PROBREQ_LABEL`. -/
def BLKID_PROBREQ_UUIDRAW : Nat := 16

/-- Modelled from the spec: see `BLKID_PROBREQ_LABEL`. -/
def BLKID_PROBREQ_TYPE : Nat := 32

/-- Modelled from the spec: see `BLKID_PROBREQ_LABEL`. -/
def BLKID_PROBREQ_USAGE : Nat := 128

/-- Modelled from the spec: see `BLKID_PROBREQ_LABEL`. -/
def BLKID_PROBREQ_VERSION : Nat := 256

/-- Modelled from the spec: the usage classes are single-bit masks defined in
the header `blkidP.h`, which is not among the source files. -/
def BLKID_USAGE_FILESYSTEM : Nat := 1

/-- Modelled from the spec: see `BLKID_USAGE_FILESYSTEM`. -/
def BLKID_USAGE_RAID : Nat := 2

/-- Modelled from the spec: see `BLKID_USAGE_FILESYSTEM`. -/
def BLKID_USAGE_CRYPTO : Nat := 4

/-- Modelled from the spec: see `BLKID_USAGE_FILESYSTEM`. -/
def BLKID_USAGE_OTHER : Nat := 8

/-- One tag-store entry (`struct blkid_prval`): a name, an inline byte buffer
and its explicit length.  Only the first `len` bytes of `data` are observable
through the API; the model stores just the bytes that have been written. -/
structure blkid_prval where
  name : String
  data : List Nat
  len : Nat
deriving DecidableEq, Repr

/-- A zeroed tag slot, as left by `calloc` / `memset` in
`blkid_probe_reset_vals`. -/
def emptyVal : blkid_prval := { name := "", data := [], len := 0 }

/-- One magic spec (`struct blkid_idmag`): a pattern (`magic`, compared over
`len` bytes) expected at byte offset `kboff*1024 + sboff`. -/
structure blkid_idmag where
  magic : List Nat
  len : Nat
  kboff : Nat
  sboff : Nat
deriving DecidableEq, Repr

/-- The probing control struct (`struct blkid_struct_probe`).  The device
behind `pr->fd` is embedded as the byte list `dev`; `off` is the origin
offset, `size` the logical size.  `sbbuf` holds the filled prefix of the
superblock buffer (its length is `pr->sbbuf_len`); `buf` holds the valid
window of the general buffer described by `buf_off`/`buf_len`, with capacity
`buf_max`.  `fltr` is the lazily allocated filter bitmap (`none` = never
allocated), `idx` the registry cursor, and `vals`/`nvals` the tag store. -/
structure blkid_struct_probe where
  dev : List Nat
  off : Nat
  size : Nat
  sbbuf : List Nat
  buf : List Nat
  buf_off : Nat
  buf_max : Nat
  buf_len : Nat
  probreq : Nat
  fltr : Option (List Bool)
  idx : Nat
  nvals : Nat
  vals : List blkid_prval
deriving DecidableEq

/-- A prober descriptor (`struct blkid_idinfo`).  `magics` is `none` when the
C descriptor has a NULL `magics` pointer, and `some ms` for a magic array
holding exactly the entries before the NULL-terminating sentinel.  The probe
function transforms the session state and returns the C `int` result
(`none` models a NULL function pointer). -/
structure blkid_idinfo where
  name : String
  usage : Nat
  magics : Option (List blkid_idmag)
  probefunc : Option (blkid_struct_probe → Option blkid_idmag →
                      Int × blkid_struct_probe)

/-- Byte view of an ASCII string (all names and formatted values in the
library are ASCII, where UTF-8 bytes coincide with code points). -/
def strBytes (s : String) : List Nat := s.data.map Char.toNat

/-- The fresh, fully zeroed probe struct returned by `blkid_new_probe`
(`calloc(1, sizeof(struct blkid_struct_probe))`, probe.c:136-139); the
embedded device is empty until `blkid_probe_set_device` binds one. -/
def blkid_new_probe : blkid_struct_probe :=
  { dev := [], off := 0, size := 0, sbbuf := [], buf := [], buf_off := 0,
    buf_max := 0, buf_len := 0, probreq := 0, fltr := none, idx := 0,
    nvals := 0, vals := List.replicate BLKID_PROBVAL_NVALS emptyVal }

/-- Clears the tag store (`blkid_probe_reset_vals`, probe.c:155-159):
`memset(pr->vals, 0, sizeof(pr->vals)); pr->nvals = 0;`. -/
def blkid_probe_reset_vals (pr : blkid_struct_probe) : blkid_struct_probe :=
  { pr with vals := List.replicate BLKID_PROBVAL_NVALS emptyVal, nvals := 0 }

/-- Resets buffers and tags (`blkid_reset_probe`, probe.c:161-173).  The C
code zeroes the buffer contents and the length/offset fields; since only the
valid windows are observable, the buffer lists become empty.  `buf_max` (the
general buffer's capacity) is preserved, as in the source. -/
def blkid_reset_probe (pr : blkid_struct_probe) : blkid_struct_probe :=
  blkid_probe_reset_vals
    { pr with buf := [], buf_off := 0, buf_len := 0, sbbuf := [] }

/-- Reading `n` bytes at absolute position `pos` of the embedded device:
yields the available bytes, possibly fewer than `n` (short read). -/
def readAt (dev : List Nat) (pos n : Nat) : List Nat := (dev.drop pos).take n

/-- The two-tier buffer cache (`blkid_probe_get_buffer`, probe.c:190-238).
Requests with `off + len ≤ BLKID_SB_BUFSIZ` are served from the superblock
buffer, lazily filled by one read of up to `BLKID_SB_BUFSIZ` bytes at the
origin; a fill that does not cover `off + len` yields `none`.  Larger
requests are served from the general buffer: it is reallocated (and its
window invalidated) when its capacity is below `len`, and re-read from
`origin + off` when freshly reallocated or when `[off, off+len)` is not
inside the cached window `[buf_off, buf_off+buf_len)`; a read shorter than
`len` yields `none` (on that path the C code has clobbered the buffer
contents with the partial read but left the window descriptor untouched,
which the model reproduces). -/
def blkid_probe_get_buffer (pr : blkid_struct_probe) (off len : Nat) :
    Option (List Nat) × blkid_struct_probe :=
  if off + len ≤ BLKID_SB_BUFSIZ then
    let pr1 := if pr.sbbuf.length = 0 then
                 { pr with sbbuf := readAt pr.dev pr.off BLKID_SB_BUFSIZ }
               else pr
    if off + len > pr1.sbbuf.length then (none, pr1)
    else (some ((pr1.sbbuf.drop off).take len), pr1)
  else
    let realloc : Bool := len > pr.buf_max
    let pr1 := if realloc then
                 { pr with buf := [], buf_max := len, buf_off := 0,
                           buf_len := 0 }
               else pr
    if realloc || off < pr1.buf_off || off + len > pr1.buf_off + pr1.buf_len
    then
      let content := readAt pr.dev (pr.off + off) len
      if content.length ≠ len then
        (none, { pr1 with buf := content ++ pr1.buf.drop content.length })
      else
        (some content, { pr1 with buf := content, buf_off := off,
                                  buf_len := len })
    else
      (some ((pr1.buf.drop (off - pr1.buf_off)).take len), pr1)

/-- Binds a device window to the probe (`blkid_probe_set_device`,
probe.c:246-268): resets the probe, records the device/origin/size (a zero
`size` is replaced by the device size, the external `blkdev_get_size`
collaborator), performs the precautionary read `get_buffer(0, 0x200)` and
fails with `-1` when it yields NULL; on success resets the cursor. -/
def blkid_probe_set_device (pr : blkid_struct_probe) (dev : List Nat)
    (off size : Nat) : Int × blkid_struct_probe :=
  let pr1 := blkid_reset_probe pr
  let pr2 := { pr1 with dev := dev, off := off,
                        size := if size = 0 then dev.length else size }
  match blkid_probe_get_buffer pr2 0 512 with
  | (none, pr3) => (-1, pr3)
  | (some _, pr3) => (0, { pr3 with idx := 0 })

/-- Reads the filter bit for prober `i` (`blkid_bmp_get_item` applied to
`pr->fltr`, guarded by the NULL check of probe.c:432); the bitmap words are
modelled as one `Bool` per registry entry. -/
def blkid_bmp_get (fltr : Option (List Bool)) (i : Nat) : Bool :=
  match fltr with
  | none => false
  | some f => f.getD i false

/-- Inverts the filter (`blkid_probe_invert_filter`, probe.c:367-378): with a
NULL probe or a never-allocated bitmap it returns `-1` and changes nothing;
otherwise it flips every bit and resets the cursor.  (The C code flips whole
`unsigned long` words, which also flips the unused padding bits past the
registry length; those bits are never read, so the per-entry model flips
exactly the registry bits.) -/
def blkid_probe_invert_filter :
    Option blkid_struct_probe → Int × Option blkid_struct_probe
  | none => (-1, none)
  | some pr =>
    match pr.fltr with
    | none => (-1, some pr)
    | some f => (0, some { pr with fltr := some (f.map (fun b => !b)),
                                   idx := 0 })

/-- Allocates a tag slot (`blkid_probe_assign_value`, probe.c:481-495):
fails (`NULL`, here `none`) when the store already holds
`BLKID_PROBVAL_NVALS` entries; otherwise writes the name into slot `nvals`,
increments `nvals`, and returns the slot index together with the new state.
(The C name-NULL check is not modelled: names are Lean strings.) -/
def blkid_probe_assign_value (pr : blkid_struct_probe) (name : String) :
    Option (Nat × blkid_struct_probe) :=
  if pr.nvals ≥ BLKID_PROBVAL_NVALS then none
  else
    some (pr.nvals,
      { pr with
        vals := pr.vals.set pr.nvals
                  { pr.vals.getD pr.nvals emptyVal with name := name },
        nvals := pr.nvals + 1 })

/-- Stores a verbatim value (`blkid_probe_set_value`, probe.c:497-512):
truncates `len` to `BLKID_PROBVAL_BUFSIZ`, allocates a slot (`-1` when the
store is full), and copies `len` bytes of `data` into it. -/
def blkid_probe_set_value (pr : blkid_struct_probe) (name : String)
    (data : List Nat) (len : Nat) : Int × blkid_struct_probe :=
  let len := if len > BLKID_PROBVAL_BUFSIZ then BLKID_PROBVAL_BUFSIZ else len
  match blkid_probe_assign_value pr name with
  | none => (-1, pr)
  | some (i, pr1) =>
    (0, { pr1 with
          vals := pr1.vals.set i
                    { name := name, data := data.take len, len := len } })

/-- Stores a formatted value (`blkid_probe_vsprintf_value`,
probe.c:514-532).  The variadic `vsnprintf` is embedded by taking the
formatted output string as the argument `formatted`; its byte length is the
`vsnprintf` return value.  A zero-length result undoes the slot allocation
(`pr->nvals--`) and returns `-1`; otherwise the NUL-terminated bytes are
stored with `len = length + 1`. -/
def blkid_probe_vsprintf_value (pr : blkid_struct_probe) (name : String)
    (formatted : String) : Int × blkid_struct_probe :=
  match blkid_probe_assign_value pr name with
  | none => (-1, pr)
  | some (i, pr1) =>
    let bytes := strBytes formatted
    if bytes.length = 0 then (-1, { pr1 with nvals := pr1.nvals - 1 })
    else
      (0, { pr1 with
            vals := pr1.vals.set i
                      { name := name,
                        data := bytes.take (BLKID_PROBVAL_BUFSIZ - 1) ++ [0],
                        len := bytes.length + 1 } })

/-- ASCII `isspace` in the C locale: space, `\t`, `\n`, `\v`, `\f`, `\r`. -/
def isspaceB (c : Nat) : Bool := c == 32 || (9 ≤ c && c ≤ 13)

/-- The backward whitespace scan of `blkid_probe_set_label`
(probe.c:595-600): starting from index `i` (excluded) it walks left while
`isspace` holds and returns the length of the remaining prefix — the value
`i + 1` the C code obtains after `while (i--) ... ; v->data[++i]`. -/
def strip_back (data : List Nat) : Nat → Nat
  | 0 => 0
  | i + 1 => if isspaceB (data.getD i 0) then strip_back data i else i + 1

/-- Emits the label tags (`blkid_probe_set_label`, probe.c:574-603):
truncates to `BLKID_PROBVAL_BUFSIZ`; when `LABEL_RAW` is requested, stores
the raw bytes verbatim (propagating a capacity failure as `-1`); when
`LABEL` is requested, stores a NUL-terminated copy, then rewrites the
terminator after the backward `isspace` scan so that trailing whitespace is
stripped from the observable value. -/
def blkid_probe_set_label (pr : blkid_struct_probe) (label : List Nat)
    (len : Nat) : Int × blkid_struct_probe :=
  let len := if len > BLKID_PROBVAL_BUFSIZ then BLKID_PROBVAL_BUFSIZ else len
  let raw := if pr.probreq &&& BLKID_PROBREQ_LABELRAW ≠ 0 then
               blkid_probe_set_value pr "LABEL_RAW" label len
             else (0, pr)
  if raw.1 < 0 then (-1, raw.2)
  else if raw.2.probreq &&& BLKID_PROBREQ_LABEL = 0 then (0, raw.2)
  else
    match blkid_probe_assign_value raw.2 "LABEL" with
    | none => (-1, raw.2)
    | some (i, pr1) =>
      let copied := label.take len
      let n := (copied.takeWhile (fun b => b ≠ 0)).length
      let k := strip_back copied n
      (0, { pr1 with
            vals := pr1.vals.set i
                      { name := "LABEL",
                        data := (copied ++ [0]).set k 0,
                        len := k + 1 } })

/-- Zero test over the first `len` bytes (`uuid_is_empty`,
probe.c:659-667). -/
def uuid_is_empty (buf : List Nat) (len : Nat) : Bool :=
  (buf.take len).all (fun b => b == 0)

/-- Lowercase hex digit of a nibble, as produced by `printf` `%02x`. -/
def hexDigit (n : Nat) : Nat := if n < 10 then 48 + n else 87 + n

/-- The two `%02x` digits of one byte. -/
def byteHex (b : Nat) : List Nat := [hexDigit (b / 16 % 16), hexDigit (b % 16)]

/-- Canonical `8-4-4-4-12` lowercase hex rendering of a 16-byte UUID, the
output of `uuid_unparse` / the `snprintf` fallback of
`blkid_probe_set_uuid_as` (probe.c:737-751); 36 bytes, hyphens (byte 45)
after bytes 3, 5, 7 and 9. -/
def uuid_unparse_fmt (u : List Nat) : List Nat :=
  byteHex (u.getD 0 0) ++ byteHex (u.getD 1 0) ++ byteHex (u.getD 2 0) ++
  byteHex (u.getD 3 0) ++ [45] ++ byteHex (u.getD 4 0) ++
  byteHex (u.getD 5 0) ++ [45] ++ byteHex (u.getD 6 0) ++
  byteHex (u.getD 7 0) ++ [45] ++ byteHex (u.getD 8 0) ++
  byteHex (u.getD 9 0) ++ [45] ++ byteHex (u.getD 10 0) ++
  byteHex (u.getD 11 0) ++ byteHex (u.getD 12 0) ++ byteHex (u.getD 13 0) ++
  byteHex (u.getD 14 0) ++ byteHex (u.getD 15 0)

/-- The variadic tail of `blkid_probe_sprintf_uuid`: the source
distinguishes exactly two shapes — the format string `"%s"` with one string
argument, and any other format, whose `vsnprintf` rendering is embedded as
the pre-formatted string. -/
inductive UuidFmt where
  | pct_s (str : String)
  | general (formatted : String)

/-- Emits a formatted UUID (`blkid_probe_sprintf_uuid`, probe.c:669-716):
truncates `len`, silently skips an all-zero UUID, stores `UUID_RAW` when
requested (propagating capacity failure), skips when `UUID` is not
requested; the `"%s"` shape copies the argument with `strncpy` (empty
argument: `-1` with no slot), other shapes go through `vsprintf_value`.
Finally, on success, the code lowercases `A..F` in `pr->vals[pr->nvals]` —
one slot past the value it just stored (the stored value keeps its case;
the touched slot is the zeroed slot after it, where the loop bound
`v->len = 0` makes the pass a no-op). -/
def blkid_probe_sprintf_uuid (pr : blkid_struct_probe) (uuid : List Nat)
    (len : Nat) (fmt : UuidFmt) : Int × blkid_struct_probe :=
  let len := if len > BLKID_PROBVAL_BUFSIZ then BLKID_PROBVAL_BUFSIZ else len
  if uuid_is_empty uuid len then (0, pr)
  else
    let raw := if pr.probreq &&& BLKID_PROBREQ_UUIDRAW ≠ 0 then
                 blkid_probe_set_value pr "UUID_RAW" uuid len
               else (0, pr)
    if raw.1 < 0 then (-1, raw.2)
    else if raw.2.probreq &&& BLKID_PROBREQ_UUID = 0 then (0, raw.2)
    else
      let res : Int × blkid_struct_probe :=
        match fmt with
        | .pct_s str =>
          if str.length ≠ 0 then
            match blkid_probe_assign_value raw.2 "UUID" with
            | none => (-1, raw.2)
            | some (i, pr1) =>
              let copied :=
                ((strBytes str ++ List.replicate BLKID_PROBVAL_BUFSIZ 0).take
                   BLKID_PROBVAL_BUFSIZ).set (BLKID_PROBVAL_BUFSIZ - 1) 0
              (0, { pr1 with
                    vals := pr1.vals.set i
                      { name := "UUID", data := copied,
                        len := (copied.takeWhile (fun b => b ≠ 0)).length } })
          else (-1, raw.2)
        | .general formatted =>
          blkid_probe_vsprintf_value raw.2 "UUID" formatted
      if res.1 = 0 then
        let pr2 := res.2
        let v := pr2.vals.getD pr2.nvals emptyVal
        let lc := { v with
          data := v.data.enum.map (fun p =>
            if p.1 < v.len ∧ 65 ≤ p.2 ∧ p.2 ≤ 70 then p.2 + 32 else p.2) }
        (0, { pr2 with vals := pr2.vals.set pr2.nvals lc })
      else res

/-- Emits a DCE UUID (`blkid_probe_set_uuid_as`, probe.c:719-753): silently
skips an all-zero 16-byte UUID; with the default (NULL) name it stores
`UUID_RAW`/`UUID` under the request-mask gating, with a caller-supplied name
it allocates a slot under that name unconditionally.  The source never
checks the slot allocation for NULL before writing the formatted UUID
through it; a full tag store therefore dereferences NULL, modelled as the
result `none`. -/
def blkid_probe_set_uuid_as (pr : blkid_struct_probe) (uuid : List Nat)
    (name : Option String) : Option (Int × blkid_struct_probe) :=
  if uuid_is_empty uuid 16 then some (0, pr)
  else
    let write : Nat × blkid_struct_probe → Int × blkid_struct_probe :=
      fun (i, pr1) =>
        (0, { pr1 with
              vals := pr1.vals.set i
                { name := (pr1.vals.getD i emptyVal).name,
                  data := uuid_unparse_fmt uuid ++ [0], len := 37 } })
    match name with
    | none =>
      let raw := if pr.probreq &&& BLKID_PROBREQ_UUIDRAW ≠ 0 then
                   blkid_probe_set_value pr "UUID_RAW" uuid 16
                 else (0, pr)
      if raw.1 < 0 then some (-1, raw.2)
      else if raw.2.probreq &&& BLKID_PROBREQ_UUID = 0 then some (0, raw.2)
      else
        match blkid_probe_assign_value raw.2 "UUID" with
        | none => none
        | some ipr => some (write ipr)
    | some n =>
      match blkid_probe_assign_value pr n with
      | none => none
      | some ipr => some (write ipr)

/-- Emits the `USAGE` tag (`blkid_probe_set_usage`, probe.c:556-572). -/
def blkid_probe_set_usage (pr : blkid_struct_probe) (usage : Nat) :
    Int × blkid_struct_probe :=
  let u := if usage &&& BLKID_USAGE_FILESYSTEM ≠ 0 then "filesystem"
           else if usage &&& BLKID_USAGE_RAID ≠ 0 then "raid"
           else if usage &&& BLKID_USAGE_CRYPTO ≠ 0 then "crypto"
           else if usage &&& BLKID_USAGE_OTHER ≠ 0 then "other"
           else "unknown"
  blkid_probe_set_value pr "USAGE" (strBytes u ++ [0])
    ((strBytes u).length + 1)

/-- The magic pre-check loop of `blkid_do_probe` (probe.c:439-450): walks
the magic array; for each spec fetches the 1024-byte window containing
`kboff*1024 + sboff` through the buffer cache and compares the pattern at
the sub-kilobyte offset; stops at the first hit.  Returns the matched spec,
or `none` when the array is exhausted. -/
def probe_magic_loop : List blkid_idmag → blkid_struct_probe →
    Option blkid_idmag × blkid_struct_probe
  | [], pr => (none, pr)
  | m :: rest, pr =>
    match blkid_probe_get_buffer pr ((m.kboff + (m.sboff >>> 10)) <<< 10)
            1024 with
    | (some buf, pr1) =>
      if (buf.drop (m.sboff &&& 1023)).take m.len = m.magic.take m.len then
        (some m, pr1)
      else probe_magic_loop rest pr1
    | (none, pr1) => probe_magic_loop rest pr1

/-- The auto-emission on a successful match (probe.c:460-466): `TYPE` and
`USAGE` are appended when requested (their own capacity failures are
ignored). -/
def do_probe_success (id : blkid_idinfo) (pr : blkid_struct_probe) :
    blkid_struct_probe :=
  let pr1 := if pr.probreq &&& BLKID_PROBREQ_TYPE ≠ 0 then
               (blkid_probe_set_value pr "TYPE" (strBytes id.name ++ [0])
                 ((strBytes id.name).length + 1)).2
             else pr
  if pr1.probreq &&& BLKID_PROBREQ_USAGE ≠ 0 then
    (blkid_probe_set_usage pr1 id.usage).2
  else pr1

/-- The dispatch loop body of `blkid_do_probe` (probe.c:426-469), iterating
over the registry entries paired with their indices.  For each entry the
cursor is set to the entry's index, the filter bit may skip it, a declared
magic list must produce a hit (a declared list with no hit skips the entry;
a NULL `magics` pointer passes a NULL magic through), and the probe function
(when present) must return 0; on success `TYPE`/`USAGE` are auto-emitted and
the loop returns 0.  Falling off the end returns 1. -/
def do_probe_loop : List (Nat × blkid_idinfo) → blkid_struct_probe →
    Int × blkid_struct_probe
  | [], pr => (1, pr)
  | (i, id) :: rest, pr =>
    let pr0 := { pr with idx := i }
    if blkid_bmp_get pr0.fltr i then do_probe_loop rest pr0
    else
      match id.magics with
      | some mags =>
        match probe_magic_loop mags pr0 with
        | (none, pr1) => do_probe_loop rest pr1
        | (some mag, pr1) =>
          match id.probefunc with
          | some f =>
            let fr := f pr1 (some mag)
            if fr.1 ≠ 0 then do_probe_loop rest fr.2
            else (0, do_probe_success id fr.2)
          | none => (0, do_probe_success id pr1)
      | none =>
        match id.probefunc with
        | some f =>
          let fr := f pr0 none
          if fr.1 ≠ 0 then do_probe_loop rest fr.2
          else (0, do_probe_success id fr.2)
        | none => (0, do_probe_success id pr0)

/-- One probing step (`blkid_do_probe`, probe.c:414-471), over a registry
given as a parameter (the concrete `idinfos` table references prober
plug-ins outside the source under scrutiny).  A NULL probe returns `-1`.
Otherwise the tag store is cleared and the loop runs; note that the source
computes `i = pr->idx + 1` and then immediately overwrites it with the
`for (i = 0; ...)` re-initializer, so iteration always starts at registry
index 0 — the model reproduces that dead store by starting at 0. -/
def blkid_do_probe (reg : List blkid_idinfo) :
    Option blkid_struct_probe → Int × Option blkid_struct_probe
  | none => (-1, none)
  | some pr =>
    let r := do_probe_loop reg.enum (blkid_probe_reset_vals pr)
    (r.1, some r.2)

/-- Size of the tag store (`blkid_probe_numof_values`, probe.c:473-478):
`-1` for a NULL probe, else `pr->nvals`. -/
def blkid_probe_numof_values : Option blkid_struct_probe → Int
  | none => -1
  | some pr => pr.nvals

/-- A registry of two probers with no magics and no probe function; every
registry entry of this shape matches unconditionally in the dispatch loop
(probe.c:436-457), so it stands for a device carrying two co-resident
signatures. -/
def regC1 : List blkid_idinfo :=
  [{ name := "sigA", usage := 0, magics := none, probefunc := none },
   { name := "sigB", usage := 0, magics := none, probefunc := none }]

/-- C1: on a registry with two always-matching probers, the first
`blkid_do_probe` call matches at registry index 0 — and so does the second
call, instead of resuming at index 1: the source computes `i = pr->idx + 1`
and then overwrites it with the `for (i = 0; ...)` re-initializer
(probe.c:423-426), so repeated calls return the same first match forever and
never reach `EXHAUSTED`, contradicting the resume-after-last semantics that
the function's own usage comment (probe.c:394-400) advertises. -/
theorem do_probe_restarts_at_zero :
    (blkid_do_probe regC1 (some blkid_new_probe)).1 = 0 ∧
    (blkid_do_probe regC1 (some blkid_new_probe)).2.map
      blkid_struct_probe.idx = some 0 ∧
    (blkid_do_probe regC1
      (blkid_do_probe regC1 (some blkid_new_probe)).2).1 = 0 ∧
    (blkid_do_probe regC1
      (blkid_do_probe regC1 (some blkid_new_probe)).2).2.map
      blkid_struct_probe.idx = some 0 := by
  decide

/-- Behaviour of the buffer cache on a small request with an unfilled
superblock buffer: one fill read at the origin, then the coverage check. -/
theorem get_buffer_sb_empty (pr : blkid_struct_probe) (off len : Nat)
    (hsb : pr.sbbuf = []) (hle : off + len ≤ BLKID_SB_BUFSIZ) :
    blkid_probe_get_buffer pr off len =
      if off + len > (readAt pr.dev pr.off BLKID_SB_BUFSIZ).length then
        (none, { pr with sbbuf := readAt pr.dev pr.off BLKID_SB_BUFSIZ })
      else
        (some (((readAt pr.dev pr.off BLKID_SB_BUFSIZ).drop off).take len),
         { pr with sbbuf := readAt pr.dev pr.off BLKID_SB_BUFSIZ }) := by
  rw [blkid_probe_get_buffer, if_pos hle]
  simp [hsb]

/-- Behaviour of the buffer cache on a small request with a filled
superblock buffer: no read, just the coverage check against the fill. -/
theorem get_buffer_sb_filled (pr : blkid_struct_probe) (off len : Nat)
    (hsb : pr.sbbuf ≠ []) (hle : off + len ≤ BLKID_SB_BUFSIZ) :
    blkid_probe_get_buffer pr off len =
      if off + len > pr.sbbuf.length then (none, pr)
      else (some ((pr.sbbuf.drop off).take len), pr) := by
  rw [blkid_probe_get_buffer, if_pos hle]
  simp [List.length_eq_zero.not.mpr hsb]

/-- Behaviour of the buffer cache on a large request served from the cached
general-buffer window: no reallocation needed and the requested window lies
inside the cached one. -/
theorem get_buffer_general_cached (pr : blkid_struct_probe) (off len : Nat)
    (hgt : BLKID_SB_BUFSIZ < off + len)
    (hre : ¬ pr.buf_max < len) (h1 : ¬ off < pr.buf_off)
    (h2 : ¬ pr.buf_off + pr.buf_len < off + len) :
    blkid_probe_get_buffer pr off len
      = (some ((pr.buf.drop (off - pr.buf_off)).take len), pr) := by
  rw [blkid_probe_get_buffer, if_neg (by omega)]
  dsimp only
  have hdf : ¬ (decide (len > pr.buf_max) = true) := by
    simp only [decide_eq_true_eq]
    omega
  rw [if_neg hdf]
  rw [if_neg (show ¬ ((decide (len > pr.buf_max) ||
      decide (off < pr.buf_off) ||
      decide (off + len > pr.buf_off + pr.buf_len)) = true) from by
    simp only [Bool.or_eq_true, decide_eq_true_eq, not_or]
    omega)]

/-- Behaviour of the buffer cache on a large request that must go to the
device: either the capacity was too small (reallocation invalidates the
window) or the requested window is not inside the cached one; the result is
the exact `len`-byte read at `origin + off`, or `none` on a short read. -/
theorem get_buffer_general_read (pr : blkid_struct_probe) (off len : Nat)
    (hgt : BLKID_SB_BUFSIZ < off + len)
    (hmust : pr.buf_max < len ∨ off < pr.buf_off ∨
      pr.buf_off + pr.buf_len < off + len) :
    (blkid_probe_get_buffer pr off len).1
      = if (readAt pr.dev (pr.off + off) len).length ≠ len then none
        else some (readAt pr.dev (pr.off + off) len) := by
  rw [blkid_probe_get_buffer, if_neg (by omega)]
  dsimp only
  by_cases hre : len > pr.buf_max
  · have hdt : decide (len > pr.buf_max) = true := by
      simpa using hre
    rw [if_pos hdt]
    rw [if_pos (show (decide (len > pr.buf_max) || decide (off < 0) ||
        decide (off + len > 0 + 0)) = true from by
      simp only [Bool.or_eq_true, decide_eq_true_eq]
      omega)]
    split
    · rfl
    · rfl
  · have hdf : ¬ (decide (len > pr.buf_max) = true) := by
      simp only [decide_eq_true_eq]
      omega
    rw [if_neg hdf]
    rw [if_pos (show (decide (len > pr.buf_max) ||
        decide (off < pr.buf_off) ||
        decide (off + len > pr.buf_off + pr.buf_len)) = true from by
      simp only [Bool.or_eq_true, decide_eq_true_eq]
      omega)]
    split
    · rfl
    · rfl

/-- C8: the `get_buffer(off, len)` contract.  A request with
`off + len ≤ SB_BUFSIZ` is served from the superblock buffer — when already
filled, `none` exactly if the fill does not cover `off + len`, else the
`len`-byte slice at `off`; when unfilled, the same against the single fill
read of up to `SB_BUFSIZ` bytes at the origin.  A larger request is served
from the general buffer: if no reallocation is needed (`len ≤ capacity`)
and `[off, off+len)` lies inside the cached window, the cached sub-slice is
returned without I/O; otherwise the device is read at `origin + off` for
exactly `len` bytes, a short read yielding `none`. -/
theorem get_buffer_contract (pr : blkid_struct_probe) (off len : Nat) :
    (off + len ≤ BLKID_SB_BUFSIZ →
      ((pr.sbbuf ≠ [] →
         (((blkid_probe_get_buffer pr off len).1 = none ↔
            pr.sbbuf.length < off + len) ∧
          (off + len ≤ pr.sbbuf.length →
            (blkid_probe_get_buffer pr off len).1
              = some ((pr.sbbuf.drop off).take len)))) ∧
       (pr.sbbuf = [] →
         (((blkid_probe_get_buffer pr off len).1 = none ↔
            (readAt pr.dev pr.off BLKID_SB_BUFSIZ).length < off + len) ∧
          (off + len ≤ (readAt pr.dev pr.off BLKID_SB_BUFSIZ).length →
            (blkid_probe_get_buffer pr off len).1
              = some (((readAt pr.dev pr.off BLKID_SB_BUFSIZ).drop
                  off).take len)))))) ∧
    (BLKID_SB_BUFSIZ < off + len →
      ((¬ (pr.buf_max < len ∨ off < pr.buf_off ∨
            pr.buf_off + pr.buf_len < off + len) →
         (blkid_probe_get_buffer pr off len).1
           = some ((pr.buf.drop (off - pr.buf_off)).take len)) ∧
       ((pr.buf_max < len ∨ off < pr.buf_off ∨
            pr.buf_off + pr.buf_len < off + len) →
         (((blkid_probe_get_buffer pr off len).1 = none ↔
            (readAt pr.dev (pr.off + off) len).length < len) ∧
          ((readAt pr.dev (pr.off + off) len).length = len →
            (blkid_probe_get_buffer pr off len).1
              = some (readAt pr.dev (pr.off + off) len)))))) := by
  constructor
  · intro hle
    constructor
    · intro hsb
      rw [get_buffer_sb_filled pr off len hsb hle]
      constructor
      · split
        · simp
          omega
        · simp
          omega
      · intro hcov
        rw [if_neg (by omega)]
    · intro hsb
      rw [get_buffer_sb_empty pr off len hsb hle]
      constructor
      · split
        · simp
          omega
        · simp
          omega
      · intro hcov
        rw [if_neg (by omega)]
  · intro hgt
    have hlenle : (readAt pr.dev (pr.off + off) len).length ≤ len := by
      simp [readAt]
    constructor
    · intro hnot
      rw [get_buffer_general_cached pr off len hgt (by tauto) (by tauto)
        (by tauto)]
    · intro hmust
      rw [get_buffer_general_read pr off len hgt hmust]
      constructor
      · split
        · simp
          omega
        · simp
          omega
      · intro hfull
        rw [if_neg (by omega)]

set_option maxRecDepth 8000 in
/-- Witness for C8: on a fresh probe over a 600-byte device, a 512-byte
request at offset 0 is served from the freshly filled superblock buffer. -/
theorem get_buffer_contract_witness :
    (blkid_probe_get_buffer
      { blkid_new_probe with dev := List.replicate 600 3 } 0 512).1
      = some (((readAt (List.replicate 600 3) 0 BLKID_SB_BUFSIZ).drop
          0).take 512) := by
  have h := ((get_buffer_contract
    { blkid_new_probe with dev := List.replicate 600 3 } 0 512).1
    (by norm_num [BLKID_SB_BUFSIZ])).2 rfl
  exact h.2 (by decide)

set_option maxRecDepth 8000 in
/-- C2 counterexample: binding a readable 256-byte device fails with `-1`:
the precautionary `get_buffer(0, 0x200)` of `blkid_probe_set_device`
(probe.c:263) yields NULL because the 256-byte fill read does not cover
offset 512 (probe.c:209-210), even though it read 256 > 0 bytes. -/
theorem set_device_short_device_fails :
    (blkid_probe_set_device blkid_new_probe (List.replicate 256 55) 0 0).1
      = -1 := by
  decide

/-- C2 amended: `blkid_probe_set_device` succeeds exactly when the device
window offers at least 512 readable bytes from the origin; any shorter
precautionary read — one byte up to 511 bytes just as much as zero bytes —
makes it return `-1`. -/
theorem set_device_succeeds_iff_512_readable (pr : blkid_struct_probe)
    (dev : List Nat) (off size : Nat) :
    (blkid_probe_set_device pr dev off size).1 = 0 ↔
      off + 512 ≤ dev.length := by
  simp only [blkid_probe_set_device, blkid_reset_probe,
    blkid_probe_reset_vals]
  rw [get_buffer_sb_empty _ 0 512 rfl (by norm_num [BLKID_SB_BUFSIZ])]
  simp only [readAt, List.length_take, List.length_drop, BLKID_SB_BUFSIZ]
  split
  · rename_i h
    norm_num
    split at h
    · rename_i hc
      omega
    · rename_i hc
      exact absurd h (by simp)
  · rename_i h
    norm_num
    split at h
    · rename_i hc
      exact absurd h (by simp)
    · rename_i hc
      omega

/-- C3: with the tag store at capacity, `blkid_probe_set_uuid_as` with a
caller-supplied name does not return `-1`: `blkid_probe_assign_value`
returns NULL (probe.c:488-489) and the source writes the formatted UUID
through that pointer without any check (probe.c:735-751) — a NULL
dereference, modelled as the result `none`. -/
theorem set_uuid_as_full_store_null_deref :
    blkid_probe_set_uuid_as
      { blkid_new_probe with nvals := BLKID_PROBVAL_NVALS } [1]
      (some "FOO") = none := by
  decide

/-- C4: with the `UUID` flag requested and the non-zero UUID byte `0x01`,
`blkid_probe_sprintf_uuid` with format `"%s"` and argument `"AB"` succeeds
and stores the bytes `[65, 66]` = `"AB"` — the uppercase hex letters survive,
because the lowercase pass runs over `pr->vals[pr->nvals]` (probe.c:709),
one slot past the value that was just stored. -/
theorem sprintf_uuid_keeps_uppercase :
    (blkid_probe_sprintf_uuid
      { blkid_new_probe with probreq := BLKID_PROBREQ_UUID } [1] 1
      (.pct_s "AB")).1 = 0 ∧
    ((blkid_probe_sprintf_uuid
      { blkid_new_probe with probreq := BLKID_PROBREQ_UUID } [1] 1
      (.pct_s "AB")).2.vals.getD 0 emptyVal).name = "UUID" ∧
    (((blkid_probe_sprintf_uuid
      { blkid_new_probe with probreq := BLKID_PROBREQ_UUID } [1] 1
      (.pct_s "AB")).2.vals.getD 0 emptyVal).data.take
      ((blkid_probe_sprintf_uuid
        { blkid_new_probe with probreq := BLKID_PROBREQ_UUID } [1] 1
        (.pct_s "AB")).2.vals.getD 0 emptyVal).len) = [65, 66] := by
  decide

/-- C5 counterexample: on a fresh probe with an empty request mask (neither
`UUID` nor `UUID_RAW` requested), `blkid_probe_set_uuid_as` with the
caller-supplied name `"FOO"` and a non-zero UUID still appends a tag named
`"FOO"`: the flag gating of probe.c:727-731 sits entirely inside the
`if (!name)` branch, so a caller-supplied name bypasses it. -/
theorem set_uuid_as_named_ignores_mask :
    (blkid_probe_set_uuid_as blkid_new_probe (List.range 16)
        (some "FOO")).map
      (fun r => (r.1, r.2.nvals, (r.2.vals.getD 0 emptyVal).name))
      = some (0, 1, "FOO") := by
  decide

/-- C5 amended: for a non-zero UUID and a caller-supplied name,
`blkid_probe_set_uuid_as` appends exactly one tag under that name, holding
the canonical lowercase `8-4-4-4-12` rendering, for every probe-request
mask: the `UUID`/`UUID_RAW` gating applies only to the default-name path. -/
theorem set_uuid_as_named_emits_unconditionally (pr : blkid_struct_probe)
    (uuid : List Nat) (name : String)
    (hz : uuid_is_empty uuid 16 = false)
    (hcap : pr.nvals < BLKID_PROBVAL_NVALS)
    (hlen : pr.vals.length = BLKID_PROBVAL_NVALS) :
    blkid_probe_set_uuid_as pr uuid (some name) =
      some (0, { pr with
        vals := pr.vals.set pr.nvals
          { name := name, data := uuid_unparse_fmt uuid ++ [0], len := 37 },
        nvals := pr.nvals + 1 }) := by
  rw [blkid_probe_set_uuid_as]
  rw [if_neg (by simp [hz])]
  simp only [blkid_probe_assign_value]
  rw [if_neg (by omega)]
  have hget : (pr.vals.set pr.nvals
      { pr.vals.getD pr.nvals emptyVal with name := name }).getD pr.nvals
      emptyVal = { pr.vals.getD pr.nvals emptyVal with name := name } := by
    rw [List.getD_eq_getElem _ _ (by simp [hlen]; omega)]
    simp
  simp only [hget, List.set_set]

/-- Witness for C5 at a fresh probe with an all-ones request mask. -/
theorem set_uuid_as_named_emits_unconditionally_witness :
    blkid_probe_set_uuid_as { blkid_new_probe with probreq := 511 }
        (List.range 16) (some "FOO") =
      some (0, { { blkid_new_probe with probreq := 511 } with
        vals := { blkid_new_probe with probreq := 511 }.vals.set 0
          { name := "FOO",
            data := uuid_unparse_fmt (List.range 16) ++ [0], len := 37 },
        nvals := 1 }) :=
  set_uuid_as_named_emits_unconditionally _ _ _ (by decide) (by decide)
    (by decide)

/-- C7: with an all-zero UUID input, both UUID emitters return success and
leave the probe state — in particular the tag store — entirely unchanged,
whatever the probe-request mask, the length, the format and the name
(probe.c:678-679 and probe.c:723-724). -/
theorem uuid_emitters_skip_zero (pr : blkid_struct_probe) (uuid : List Nat)
    (len : Nat) (fmt : UuidFmt) (name : Option String)
    (hz : uuid.all (fun b => b == 0) = true) :
    blkid_probe_sprintf_uuid pr uuid len fmt = (0, pr) ∧
    blkid_probe_set_uuid_as pr uuid name = some (0, pr) := by
  have hempty : ∀ n, uuid_is_empty uuid n = true := by
    intro n
    simp only [uuid_is_empty, List.all_eq_true] at hz ⊢
    intro x hx
    exact hz x (List.take_subset _ _ hx)
  constructor
  · rw [blkid_probe_sprintf_uuid]
    simp only [hempty, if_true]
  · rw [blkid_probe_set_uuid_as]
    simp only [hempty, if_true]

/-- Witness for C7 at a fresh probe with an all-ones request mask and a
3-byte all-zero UUID. -/
theorem uuid_emitters_skip_zero_witness :
    blkid_probe_sprintf_uuid { blkid_new_probe with probreq := 511 }
        [0, 0, 0] 3 (.pct_s "AB")
      = (0, { blkid_new_probe with probreq := 511 }) ∧
    blkid_probe_set_uuid_as { blkid_new_probe with probreq := 511 }
        [0, 0, 0] (some "FOO")
      = some (0, { blkid_new_probe with probreq := 511 }) :=
  uuid_emitters_skip_zero _ _ _ _ _ (by decide)

/-- Trailing-strip on the specification side: drop from the right end of
`l` while `p` holds. -/
def rstrip (p : Nat → Bool) (l : List Nat) : List Nat :=
  (l.reverse.dropWhile p).reverse

theorem rstrip_concat (p : Nat → Bool) (l : List Nat) (a : Nat) :
    rstrip p (l ++ [a]) = if p a then rstrip p l else l ++ [a] := by
  rw [rstrip, List.reverse_append]
  simp only [List.reverse_cons, List.reverse_nil, List.nil_append,
    List.singleton_append, List.dropWhile_cons]
  split
  · rfl
  · simp [rstrip]

theorem strip_back_congr (a b : List Nat) (n : Nat)
    (h : ∀ i, i < n → a.getD i 0 = b.getD i 0) :
    strip_back a n = strip_back b n := by
  induction n with
  | zero => rfl
  | succ k ih =>
    simp only [strip_back, h k (Nat.lt_succ_self k)]
    split
    · exact ih (fun i hi => h i (Nat.lt_succ_of_lt hi))
    · rfl

theorem getD_take_lt (l : List Nat) (n i : Nat) (h : i < n) :
    (l.take n).getD i 0 = l.getD i 0 := by
  induction l generalizing n i with
  | nil => simp
  | cons b bs ih =>
    cases n with
    | zero => omega
    | succ n2 =>
      cases i with
      | zero => simp
      | succ i2 =>
        simp only [List.take_cons, List.getD_cons_succ]
        exact ih n2 i2 (by omega)

theorem take_takeWhile_length (p : Nat → Bool) (l : List Nat) :
    l.take ((l.takeWhile p).length) = l.takeWhile p := by
  induction l with
  | nil => rfl
  | cons b bs ih =>
    by_cases hp : p b
    · simp [List.takeWhile_cons, hp, ih]
    · simp [List.takeWhile_cons, hp]

theorem length_takeWhile_le_len (p : Nat → Bool) (l : List Nat) :
    (l.takeWhile p).length ≤ l.length := by
  have h : (l.takeWhile p).length + (l.dropWhile p).length = l.length := by
    rw [← List.length_append, List.takeWhile_append_dropWhile]
  omega

theorem strip_back_le (l : List Nat) (n : Nat) : strip_back l n ≤ n := by
  induction n with
  | zero => exact Nat.le_refl 0
  | succ k ih =>
    simp only [strip_back]
    split
    · exact Nat.le_succ_of_le ih
    · exact Nat.le_refl _

theorem getD_set_self_of_lt {α : Type} (l : List α) (i : Nat) (x d : α)
    (h : i < l.length) : (l.set i x).getD i d = x := by
  rw [List.getD_eq_getElem _ _ (by simpa using h)]
  simp

theorem getD_set_ne_idx {α : Type} (l : List α) (i j : Nat) (x d : α)
    (h : i ≠ j) : (l.set i x).getD j d = l.getD j d := by
  rw [List.getD_eq_getD_get?, List.getD_eq_getD_get?]
  rw [show (l.set i x).get? j = l.get? j from by
    simp [List.getElem?_set_ne h]]

theorem take_set_concat (l : List Nat) (k : Nat) (hk : k ≤ l.length) :
    ((l ++ [0]).set k 0).take (k + 1) = l.take k ++ [0] := by
  induction l generalizing k with
  | nil =>
    have : k = 0 := by simpa using hk
    subst this
    rfl
  | cons b bs ih =>
    cases k with
    | zero => rfl
    | succ k2 =>
      simp only [List.cons_append, List.set_cons_succ, List.take_succ_cons]
      rw [ih k2 (by simpa using hk)]

/-- Capacity-respecting behaviour of `blkid_probe_set_value`: below
capacity, exactly one tag is appended, its payload truncated to
`BLKID_PROBVAL_BUFSIZ`. -/
theorem set_value_ok (pr : blkid_struct_probe) (name : String)
    (data : List Nat) (len : Nat)
    (hlen : len ≤ BLKID_PROBVAL_BUFSIZ)
    (hcap : pr.nvals < BLKID_PROBVAL_NVALS) :
    blkid_probe_set_value pr name data len =
      (0, { pr with
            vals := pr.vals.set pr.nvals
              { name := name, data := data.take len, len := len },
            nvals := pr.nvals + 1 }) := by
  rw [blkid_probe_set_value]
  simp only [blkid_probe_assign_value]
  rw [if_neg (by omega : ¬ len > BLKID_PROBVAL_BUFSIZ),
    if_neg (by omega : ¬ pr.nvals ≥ BLKID_PROBVAL_NVALS)]
  simp only [List.set_set]

/-- Capacity-respecting behaviour of `blkid_probe_assign_value`. -/
theorem assign_value_ok (pr : blkid_struct_probe) (name : String)
    (hcap : pr.nvals < BLKID_PROBVAL_NVALS) :
    blkid_probe_assign_value pr name =
      some (pr.nvals,
        { pr with
          vals := pr.vals.set pr.nvals
            { pr.vals.getD pr.nvals emptyVal with name := name },
          nvals := pr.nvals + 1 }) := by
  simp only [blkid_probe_assign_value]
  rw [if_neg (by omega : ¬ pr.nvals ≥ BLKID_PROBVAL_NVALS)]

theorem strip_back_spec (l : List Nat) :
    strip_back l l.length = (rstrip isspaceB l).length ∧
      l.take ((rstrip isspaceB l).length) = rstrip isspaceB l := by
  induction l using List.reverseRecOn with
  | nil => exact ⟨rfl, rfl⟩
  | append_singleton l a ih =>
    have hlen : (l ++ [a]).length = l.length + 1 := by simp
    have hgetD : (l ++ [a]).getD l.length 0 = a := by
      rw [List.getD_append_right _ _ _ _ (Nat.le_refl _)]
      simp
    have hagree : ∀ i, i < l.length →
        (l ++ [a]).getD i 0 = l.getD i 0 := by
      intro i hi
      exact List.getD_append _ _ _ _ hi
    rw [hlen, rstrip_concat]
    simp only [strip_back, hgetD]
    by_cases hp : isspaceB a
    · rw [if_pos hp, if_pos hp]
      refine ⟨(strip_back_congr _ _ _ hagree).trans ih.1, ?_⟩
      have hle : (rstrip isspaceB l).length ≤ l.length := by
        have := strip_back_le l l.length
        omega
      rw [List.take_append_of_le_length hle]
      exact ih.2
    · rw [if_neg hp, if_neg hp]
      refine ⟨by simp, ?_⟩
      rw [List.take_length]

set_option maxRecDepth 8000 in
/-- C6 counterexample: a 257-byte raw label is truncated to
`BLKID_PROBVAL_BUFSIZ = 256` bytes before storage (probe.c:579-580), so the
`LABEL_RAW` tag is not the input verbatim. -/
theorem set_label_long_input_not_verbatim :
    (blkid_probe_set_label
        { blkid_new_probe with
          probreq := BLKID_PROBREQ_LABEL ||| BLKID_PROBREQ_LABELRAW }
        (List.replicate 257 65) 257).1 = 0 ∧
    ((blkid_probe_set_label
        { blkid_new_probe with
          probreq := BLKID_PROBREQ_LABEL ||| BLKID_PROBREQ_LABELRAW }
        (List.replicate 257 65) 257).2.vals.getD 0 emptyVal).name
      = "LABEL_RAW" ∧
    ((blkid_probe_set_label
        { blkid_new_probe with
          probreq := BLKID_PROBREQ_LABEL ||| BLKID_PROBREQ_LABELRAW }
        (List.replicate 257 65) 257).2.vals.getD 0 emptyVal).data
      ≠ List.replicate 257 65 := by
  refine ⟨by decide, by decide, ?_⟩
  intro h
  have hl := congrArg List.length h
  revert hl
  decide

/-- C6 amended: for a raw label of at most `BLKID_PROBVAL_BUFSIZ = 256`
bytes, with both `LABEL` and `LABEL_RAW` requested and at least two free
tag slots, `blkid_probe_set_label` appends `LABEL_RAW` holding the input
verbatim and then `LABEL` holding a NUL-terminated copy of the bytes before
the first NUL with trailing ASCII whitespace stripped (longer inputs are
truncated to 256 bytes first). -/
theorem set_label_strips_trailing_whitespace (pr : blkid_struct_probe)
    (label : List Nat)
    (hraw : pr.probreq &&& BLKID_PROBREQ_LABELRAW ≠ 0)
    (hlab : pr.probreq &&& BLKID_PROBREQ_LABEL ≠ 0)
    (hlen : label.length ≤ BLKID_PROBVAL_BUFSIZ)
    (hvals : pr.vals.length = BLKID_PROBVAL_NVALS)
    (hcap : pr.nvals + 2 ≤ BLKID_PROBVAL_NVALS) :
    (blkid_probe_set_label pr label label.length).1 = 0 ∧
    (blkid_probe_set_label pr label label.length).2.nvals = pr.nvals + 2 ∧
    ((blkid_probe_set_label pr label label.length).2.vals.getD pr.nvals
      emptyVal)
      = { name := "LABEL_RAW", data := label, len := label.length } ∧
    (((blkid_probe_set_label pr label label.length).2.vals.getD
        (pr.nvals + 1) emptyVal).data.take
      ((blkid_probe_set_label pr label label.length).2.vals.getD
        (pr.nvals + 1) emptyVal).len)
      = rstrip isspaceB (label.takeWhile (fun b => b ≠ 0)) ++ [0] ∧
    ((blkid_probe_set_label pr label label.length).2.vals.getD
      (pr.nvals + 1) emptyVal).name = "LABEL" := by
  have h1 : (if label.length > BLKID_PROBVAL_BUFSIZ then BLKID_PROBVAL_BUFSIZ
             else label.length) = label.length := if_neg (by omega)
  have hA := set_value_ok pr "LABEL_RAW" label label.length hlen (by omega)
  rw [blkid_probe_set_label]
  simp only [h1, if_pos hraw, hA]
  rw [if_neg (by norm_num), if_neg hlab]
  rw [assign_value_ok _ "LABEL" (by dsimp only; omega)]
  dsimp only
  simp only [List.set_set, List.take_length]
  refine ⟨trivial, trivial, ?_, ?_, ?_⟩
  · rw [getD_set_ne_idx _ _ _ _ _ (by omega)]
    exact getD_set_self_of_lt _ _ _ _ (by omega)
  · rw [getD_set_self_of_lt _ _ _ _ (by simp [hvals]; omega)]
    have hkeq : strip_back label
        (label.takeWhile (fun b => b ≠ 0)).length =
        (rstrip isspaceB (label.takeWhile (fun b => b ≠ 0))).length := by
      have hcongr : strip_back label
          (label.takeWhile (fun b => b ≠ 0)).length =
          strip_back (label.takeWhile (fun b => b ≠ 0))
            (label.takeWhile (fun b => b ≠ 0)).length := by
        refine (strip_back_congr _ _ _ (fun i hi => ?_)).symm
        rw [← take_takeWhile_length (fun b => b ≠ 0) label]
        exact getD_take_lt _ _ _ hi
      rw [hcongr]
      exact (strip_back_spec _).1
    have heffle : (label.takeWhile (fun b => b ≠ 0)).length ≤ label.length :=
      length_takeWhile_le_len _ _
    have hkle : (rstrip isspaceB (label.takeWhile (fun b => b ≠ 0))).length ≤
        (label.takeWhile (fun b => b ≠ 0)).length := by
      rw [← hkeq]
      exact strip_back_le _ _
    dsimp only
    rw [hkeq, take_set_concat label _ (by omega)]
    congr 1
    rw [show label.take
        (rstrip isspaceB (label.takeWhile (fun b => b ≠ 0))).length =
        (label.take ((label.takeWhile (fun b => b ≠ 0)).length)).take
          (rstrip isspaceB (label.takeWhile (fun b => b ≠ 0))).length from by
      rw [List.take_take, Nat.min_eq_left hkle]]
    rw [take_takeWhile_length]
    exact (strip_back_spec _).2
  · rw [getD_set_self_of_lt _ _ _ _ (by simp [hvals]; omega)]

/-- Witness for C6: the spec's `b"ROOT   \0"` example — `LABEL` comes out
as `"ROOT"` plus terminator. -/
theorem set_label_strips_trailing_whitespace_witness :
    (blkid_probe_set_label
      { blkid_new_probe with
        probreq := BLKID_PROBREQ_LABEL ||| BLKID_PROBREQ_LABELRAW }
      [82, 79, 79, 84, 32, 32, 32, 0] 8).1 = 0 ∧
    (((blkid_probe_set_label
      { blkid_new_probe with
        probreq := BLKID_PROBREQ_LABEL ||| BLKID_PROBREQ_LABELRAW }
      [82, 79, 79, 84, 32, 32, 32, 0] 8).2.vals.getD 1 emptyVal).data.take
      ((blkid_probe_set_label
      { blkid_new_probe with
        probreq := BLKID_PROBREQ_LABEL ||| BLKID_PROBREQ_LABELRAW }
      [82, 79, 79, 84, 32, 32, 32, 0] 8).2.vals.getD 1 emptyVal).len)
      = [82, 79, 79, 84, 0] := by
  have h := set_label_strips_trailing_whitespace
    { blkid_new_probe with
      probreq := BLKID_PROBREQ_LABEL ||| BLKID_PROBREQ_LABELRAW }
    [82, 79, 79, 84, 32, 32, 32, 0] (by decide) (by decide) (by decide)
    (by decide) (by decide)
  exact ⟨h.1, h.2.2.2.1.trans (by decide)⟩

/-- C10: on a session on which no filter bitmap was ever allocated,
`blkid_probe_invert_filter` returns `-1` and leaves the session untouched
(probe.c:371-372): no bitmap is materialized and the cursor keeps its
value. -/
theorem invert_filter_no_filter (pr : blkid_struct_probe)
    (h : pr.fltr = none) :
    blkid_probe_invert_filter (some pr) = (-1, some pr) := by
  simp [blkid_probe_invert_filter, h]

/-- The buffer cache never touches the tag store. -/
theorem get_buffer_nvals (pr : blkid_struct_probe) (off len : Nat) :
    ((blkid_probe_get_buffer pr off len).2).nvals = pr.nvals := by
  rw [blkid_probe_get_buffer]
  dsimp only
  repeat' split
  all_goals rfl

/-- The magic pre-check loop never touches the tag store. -/
theorem probe_magic_loop_nvals (mags : List blkid_idmag) :
    ∀ pr : blkid_struct_probe,
      ((probe_magic_loop mags pr).2).nvals = pr.nvals := by
  induction mags with
  | nil => intro pr; rfl
  | cons m rest ih =>
    intro pr
    rw [probe_magic_loop]
    rcases hgb : blkid_probe_get_buffer pr ((m.kboff + (m.sboff >>> 10)) <<< 10)
        1024 with ⟨ob, pr1⟩
    have hnv : pr1.nvals = pr.nvals := by
      have h2 := get_buffer_nvals pr ((m.kboff + (m.sboff >>> 10)) <<< 10) 1024
      rw [hgb] at h2
      exact h2
    cases ob with
    | none =>
      dsimp only
      exact (ih pr1).trans hnv
    | some buf =>
      dsimp only
      split
      · exact hnv
      · exact (ih pr1).trans hnv

/-- A prober that does not leak tags: whenever its probe function rejects
(non-zero result), it leaves the tag count as it found it. -/
def prober_preserves_tags (id : blkid_idinfo) : Prop :=
  ∀ f, id.probefunc = some f →
    ∀ pr m, (f pr m).1 ≠ 0 → ((f pr m).2).nvals = pr.nvals

theorem do_probe_loop_exhausted_nvals :
    ∀ (l : List (Nat × blkid_idinfo)) (pr : blkid_struct_probe),
      (∀ p ∈ l, prober_preserves_tags p.2) →
      (do_probe_loop l pr).1 = 1 →
      ((do_probe_loop l pr).2).nvals = pr.nvals := by
  intro l
  induction l with
  | nil => intro pr _ _; rfl
  | cons hd rest ih =>
    rcases hd with ⟨i, id⟩
    intro pr hpres hex
    have hhd : prober_preserves_tags id :=
      hpres (i, id) (List.mem_cons_self _ _)
    have hrest : ∀ p ∈ rest, prober_preserves_tags p.2 :=
      fun p hp => hpres p (List.mem_cons_of_mem _ hp)
    rw [do_probe_loop] at hex ⊢
    dsimp only at hex ⊢
    by_cases hf : blkid_bmp_get pr.fltr i
    · simp only [hf, if_true] at hex ⊢
      exact ih _ hrest hex
    · simp only [hf, if_false, Bool.false_eq_true] at hex ⊢
      cases hm : id.magics with
      | none =>
        rw [hm] at hex
        dsimp only at hex ⊢
        cases hpf : id.probefunc with
        | none =>
          rw [hpf] at hex
          dsimp only at hex
          exact absurd hex (by norm_num)
        | some f =>
          rw [hpf] at hex
          dsimp only at hex ⊢
          by_cases hr : (f { pr with idx := i } none).1 ≠ 0
          · simp only [if_pos hr] at hex ⊢
            exact (ih _ hrest hex).trans (hhd f hpf _ none hr)
          · simp only [if_neg hr] at hex
            exact absurd hex (by norm_num)
      | some mags =>
        rw [hm] at hex
        dsimp only at hex ⊢
        rcases hml : probe_magic_loop mags { pr with idx := i }
            with ⟨om, pr1⟩
        have hnv1 : pr1.nvals = pr.nvals := by
          have h2 := probe_magic_loop_nvals mags { pr with idx := i }
          rw [hml] at h2
          exact h2
        rw [hml] at hex
        cases om with
        | none =>
          dsimp only at hex ⊢
          exact (ih _ hrest hex).trans hnv1
        | some mg =>
          dsimp only at hex ⊢
          cases hpf : id.probefunc with
          | none =>
            rw [hpf] at hex
            dsimp only at hex
            exact absurd hex (by norm_num)
          | some f =>
            rw [hpf] at hex
            dsimp only at hex ⊢
            by_cases hr : (f pr1 (some mg)).1 ≠ 0
            · simp only [if_pos hr] at hex ⊢
              exact ((ih _ hrest hex).trans (hhd f hpf _ (some mg) hr)).trans
                hnv1
            · simp only [if_neg hr] at hex
              exact absurd hex (by norm_num)

theorem snd_mem_of_mem_enumFrom {α : Type} :
    ∀ (l : List α) (n : Nat) (p : Nat × α),
      p ∈ List.enumFrom n l → p.2 ∈ l := by
  intro l
  induction l with
  | nil => intro n p hp; simp [List.enumFrom] at hp
  | cons a as ih =>
    intro n p hp
    simp only [List.enumFrom] at hp
    rcases List.mem_cons.mp hp with h | h
    · subst h
      exact List.mem_cons_self _ _
    · exact List.mem_cons_of_mem _ (ih (n + 1) p h)

/-- A registry holding one leaky prober: its probe function emits a `LABEL`
tag and then rejects with result 1 — behaviour the plug-in contract merely
discourages ("SHOULD truncate"), and which the dispatch loop does not clean
up. -/
def regC9 : List blkid_idinfo :=
  [{ name := "leaky", usage := 0, magics := none,
     probefunc := some (fun pr _ =>
       (1, (blkid_probe_set_value pr "LABEL" [65] 1).2)) }]

/-- C9 counterexample: on the one-prober registry `regC9`, `blkid_do_probe`
returns `EXHAUSTED` (1) while `blkid_probe_numof_values` reports 1, not 0:
the dispatch loop clears the tag store only on entry (probe.c:421), so tags
emitted by a prober that subsequently rejects survive into the
`EXHAUSTED` return. -/
theorem do_probe_exhausted_with_leaked_tags :
    (blkid_do_probe regC9 (some blkid_new_probe)).1 = 1 ∧
    blkid_probe_numof_values (blkid_do_probe regC9 (some blkid_new_probe)).2
      = 1 := by
  constructor
  · decide
  · decide

/-- C9 amended: after a `blkid_do_probe` call on an actual (non-NULL)
session returns `EXHAUSTED` (1), `blkid_probe_numof_values` is 0 provided
every prober in the registry leaves the tag count unchanged when it
rejects; without that proviso a rejecting prober's tags survive (and the
`-1` return arises only for the NULL session, on which
`blkid_probe_numof_values` is `-1`). -/
theorem do_probe_exhausted_clears_tags (reg : List blkid_idinfo)
    (pr : blkid_struct_probe)
    (hpres : ∀ id ∈ reg, prober_preserves_tags id)
    (hex : (blkid_do_probe reg (some pr)).1 = 1) :
    blkid_probe_numof_values (blkid_do_probe reg (some pr)).2 = 0 := by
  rw [blkid_do_probe] at hex ⊢
  dsimp only at hex ⊢
  rw [blkid_probe_numof_values]
  have hmem : ∀ p ∈ reg.enum, prober_preserves_tags p.2 := by
    intro p hp
    rw [List.enum] at hp
    exact hpres p.2 (snd_mem_of_mem_enumFrom _ _ _ hp)
  have h := do_probe_loop_exhausted_nvals reg.enum
    (blkid_probe_reset_vals pr) hmem hex
  rw [h]
  rfl

/-- A registry holding one prober with a declared-but-empty magic list,
which the dispatch loop always skips (probe.c:452-454). -/
def regC9w : List blkid_idinfo :=
  [{ name := "nomatch", usage := 0, magics := some [], probefunc := none }]

/-- Witness for C9 on `regC9w` and a fresh probe. -/
theorem do_probe_exhausted_clears_tags_witness :
    (blkid_do_probe regC9w (some blkid_new_probe)).1 = 1 ∧
    blkid_probe_numof_values
      (blkid_do_probe regC9w (some blkid_new_probe)).2 = 0 := by
  refine ⟨by decide, ?_⟩
  refine do_probe_exhausted_clears_tags regC9w blkid_new_probe ?_ (by decide)
  intro id hid
  simp only [regC9w, List.mem_singleton] at hid
  subst hid
  intro f hf
  exact Option.noConfusion hf

/-- Witness for C10 at the fresh probe. -/
theorem invert_filter_no_filter_witness :
    blkid_new_probe.fltr = none ∧
    blkid_probe_invert_filter (some blkid_new_probe)
      = (-1, some blkid_new_probe) :=
  ⟨rfl, invert_filter_no_filter blkid_new_probe rfl⟩

end Blkid
